import Mathlib

/-
Verification of the provider abstraction and selection subsystem of the
ai-changelog-generator repository (lib/provider-manager.js and
lib/providers/*.js).  The JavaScript adapters are shallowly embedded as
executable Lean functions: configuration maps become a record of optional
strings, JavaScript truthiness and the logical-or defaulting idiom are made
explicit, vendor SDK calls become function parameters so the adapter logic
around them can be analysed, and thrown exceptions become Except.error.
-/

namespace AIChangelog

/-- Truthiness of an optional JavaScript string: undefined and the empty
string are falsy, every other string is truthy. -/
def jsTruthy : Option String → Bool
  | none => false
  | some s => s != ""

/-- The JavaScript expression a OR b for a an optional string and b a string
default: returns a when a is truthy, the default otherwise. -/
def jsOrStr (a : Option String) (d : String) : String :=
  match a with
  | none => d
  | some s => if s = "" then d else s

/-- The JavaScript expression a OR b where the right operand may itself be
absent: returns a when truthy, otherwise b unchanged (b may be undefined). -/
def jsOrOpt (a b : Option String) : Option String :=
  if jsTruthy a then a else b

/-- The JavaScript expression a OR d for a an optional number and d a
numeric default: undefined and 0 are falsy, so both are replaced by d.
Numbers are modelled as rationals; the adapters only select among
literals, no vendor arithmetic is modelled. -/
def jsOrNum (a : Option ℚ) (d : ℚ) : ℚ :=
  match a with
  | none => d
  | some x => if x = 0 then d else x

/-- Whether the sub list occurs as a contiguous run at the start of l. -/
def startsWithList : List Char → List Char → Bool
  | [], _ => true
  | _ :: _, [] => false
  | a :: as, b :: bs => a = b && startsWithList as bs

/-- Whether the sub list occurs contiguously anywhere inside l. -/
def containsList (sub : List Char) : List Char → Bool
  | [] => startsWithList sub []
  | l@(_ :: t) => startsWithList sub l || containsList sub t

/-- JavaScript s.includes(sub) on strings. -/
def jsIncludes (s sub : String) : Bool :=
  containsList sub.toList s.toList

/-- JavaScript s.toLowerCase() on the ASCII identifiers the adapters use. -/
def jsToLower (s : String) : String :=
  String.mk (s.toList.map Char.toLower)

/-- The configuration mapping read by the providers (lib/config.js output).
Every key the embedded code reads is a field; absent keys are none.  The
process environment variable GOOGLE_APPLICATION_CREDENTIALS read by the
Vertex adapter is carried in the same record. -/
structure Config where
  AI_PROVIDER : Option String := none
  OPENAI_API_KEY : Option String := none
  ANTHROPIC_API_KEY : Option String := none
  OLLAMA_HOST : Option String := none
  OLLAMA_MODEL : Option String := none
  AZURE_OPENAI_ENDPOINT : Option String := none
  AZURE_OPENAI_KEY : Option String := none
  AZURE_USE_AD_AUTH : Option String := none
  AZURE_OPENAI_DEPLOYMENT_NAME : Option String := none
  VERTEX_PROJECT_ID : Option String := none
  VERTEX_KEY_FILE : Option String := none
  VERTEX_CREDENTIALS : Option String := none
  VERTEX_MODEL : Option String := none
  GOOGLE_APPLICATION_CREDENTIALS_env : Option String := none
  GOOGLE_API_KEY : Option String := none
  GOOGLE_DEFAULT_MODEL : Option String := none
  LMSTUDIO_API_BASE : Option String := none
  LMSTUDIO_MODEL : Option String := none
  HUGGINGFACE_API_KEY : Option String := none
  HUGGINGFACE_ENDPOINT_URL : Option String := none
  HUGGINGFACE_USE_MCP : Option String := none
  deriving Repr, DecidableEq

/-- A configuration with nothing supplied. -/
def emptyConfig : Config := {}

/-- Normalized commit-size signals consumed by getModelRecommendation. -/
structure CommitDetails where
  breaking : Bool := false
  complex : Bool := false
  files : Nat := 0
  lines : Nat := 0
  deriving Repr, DecidableEq

/-- The model recommendation value returned by every adapter. -/
structure ModelRecommendation where
  model : String
  reason : String
  deriving Repr, DecidableEq

/-- Normalized completion options (the options argument of
generateCompletion).  Callback-valued fields are tracked as booleans
recording whether a function was supplied, matching the typeof checks in
the code. -/
structure COptions where
  model : Option String := none
  max_tokens : Option ℚ := none
  temperature : Option ℚ := none
  top_p : Option ℚ := none
  stream : Bool := false
  hasTools : Bool := false
  hasOnUpdate : Bool := false
  hasOnStreamData : Bool := false
  useEndpoint : Bool := false
  useMcp : Bool := false
  retryCount : Nat := 0
  triedFallback : Bool := false
  deriving Repr, DecidableEq

/-- Normalized completion response shape.  content is optional because the
streaming branches of most adapters return an object with no content field
at all; streamHandle records that the raw vendor stream was returned. -/
structure NResp where
  content : Option String := none
  model : String := ""
  streamHandle : Bool := false
  deriving Repr, DecidableEq

namespace OpenAIProvider

/-- OpenAIProvider.isAvailable from lib/providers/openai.js: double negation
of config.OPENAI_API_KEY. -/
def isAvailable (c : Config) : Bool :=
  jsTruthy c.OPENAI_API_KEY

/-- The params object built by OpenAIProvider.generateCompletion (model,
max_tokens, temperature defaulting through the JavaScript OR operator). -/
structure Params where
  model : String
  max_tokens : ℚ
  temperature : ℚ
  deriving Repr, DecidableEq

/-- The defaulted request parameters of OpenAIProvider.generateCompletion. -/
def buildParams (opts : COptions) : Params :=
  { model := jsOrStr opts.model "gpt-4o"
    max_tokens := jsOrNum opts.max_tokens 1000
    temperature := jsOrNum opts.temperature (3 / 10) }

/-- Outcome of the two possible vendor SDK calls made by
OpenAIProvider.generateCompletion: creating a stream, or a completion whose
message content may be null. -/
structure Vendor where
  streamCall : Except String Unit := .ok ()
  completionContent : Except String (Option String) := .ok (some "")
  completionModel : String := ""
  deriving Repr

/-- OpenAIProvider.generateCompletion: not-configured guard, streaming
branch returning the raw stream object with no content field, otherwise the
vendor completion mapped to the normalized response. -/
def generateCompletion (c : Config) (vendor : Vendor) (opts : COptions) :
    Except String NResp :=
  if isAvailable c = false then .error "OpenAI provider is not configured."
  else
    let params := buildParams opts
    if opts.stream then
      (vendor.streamCall).map fun _ =>
        { content := none, model := params.model, streamHandle := true }
    else
      (vendor.completionContent).map fun content =>
        { content := content, model := vendor.completionModel,
          streamHandle := false }

/-- OpenAIProvider.getModelRecommendation from lib/providers/openai.js. -/
def getModelRecommendation (d : CommitDetails) : ModelRecommendation :=
  if d.breaking = true ∨ d.complex = true ∨ 20 < d.files then
    ⟨"gpt-4o", "Complex or breaking change requiring advanced reasoning"⟩
  else if 1000 < d.lines ∨ 10 < d.files then
    ⟨"gpt-4.1-standard", "Large change requiring standard capabilities"⟩
  else if d.lines < 200 then
    ⟨"gpt-4.1-nano", "Small change, optimized for efficiency"⟩
  else
    ⟨"gpt-4.1-mini", "Medium-sized change"⟩

/-- Capability descriptor of the OpenAI adapter. -/
structure Caps where
  vision : Bool := false
  tool_use : Bool := false
  json_mode : Bool := false
  prompt_caching : Bool := false
  reasoning : Bool := false
  large_context : Bool := false
  deriving Repr, DecidableEq

/-- OpenAIProvider.getCapabilities: base all-false descriptor mutated by the
three independent substring rules of the source. -/
def getCapabilities (modelName : Option String) : Caps :=
  let model := jsOrStr modelName "gpt-4o"
  let caps : Caps := {}
  let caps := if jsIncludes model "gpt-4o" then
      { caps with vision := true, tool_use := true, json_mode := true, reasoning := true, large_context := true }
    else caps
  let caps := if jsIncludes model "o1" then
      { caps with reasoning := true, tool_use := true, large_context := true }
    else caps
  if jsIncludes model "gpt-4.1" then
    let caps :=
      { caps with prompt_caching := true, tool_use := true, json_mode := true }
    if jsIncludes model "standard" then
      { caps with vision := true, large_context := true }
    else caps
  else caps

end OpenAIProvider

namespace AnthropicProvider

/-- AnthropicProvider.isAvailable from lib/providers/anthropic.js. -/
def isAvailable (c : Config) : Bool :=
  jsTruthy c.ANTHROPIC_API_KEY

/-- Vendor outcomes for AnthropicProvider.generateCompletion: creating a
message stream, or a message whose text parts are joined into content. -/
structure Vendor where
  streamCall : Except String Unit := .ok ()
  messageContent : Except String String := .ok ""
  messageModel : String := ""
  deriving Repr

/-- AnthropicProvider.generateCompletion: not-configured guard, streaming
branch returning the raw stream with no content, otherwise the vendor
message with its text parts joined. -/
def generateCompletion (c : Config) (vendor : Vendor) (opts : COptions) :
    Except String NResp :=
  if isAvailable c = false then .error "Anthropic provider is not configured."
  else
    let model := jsOrStr opts.model "claude-4.0-sonnet"
    if opts.stream then
      (vendor.streamCall).map fun _ =>
        { content := none, model := model, streamHandle := true }
    else
      (vendor.messageContent).map fun content =>
        { content := some content, model := vendor.messageModel,
          streamHandle := false }

/-- AnthropicProvider.getModelRecommendation from lib/providers/anthropic.js. -/
def getModelRecommendation (d : CommitDetails) : ModelRecommendation :=
  if d.breaking = true ∨ d.complex = true then
    ⟨"claude-4.0-opus", "Complex or breaking change detected"⟩
  else if 1000 < d.lines ∨ 30 < d.files then
    ⟨"claude-4.0-sonnet", "Large commit size"⟩
  else if 500 < d.lines ∨ 15 < d.files then
    ⟨"claude-3.5-sonnet", "Medium-large commit size"⟩
  else if 200 < d.lines ∨ 8 < d.files then
    ⟨"claude-3.5-haiku", "Medium commit size"⟩
  else
    ⟨"claude-3-haiku", "Standard commit size"⟩

/-- Capability descriptor of the Anthropic adapter. -/
structure Caps where
  vision : Bool := false
  tool_use : Bool := false
  json_mode : Bool := false
  reasoning : Bool := false
  large_context : Bool := false
  deriving Repr, DecidableEq

/-- AnthropicProvider.getCapabilities: an else-if chain over the claude-4,
claude-3.5 and claude-3 families. -/
def getCapabilities (modelName : Option String) : Caps :=
  let model := jsOrStr modelName "claude-4.0-sonnet"
  let caps : Caps := {}
  if jsIncludes model "claude-4" then
    { caps with vision := true, tool_use := true, json_mode := true, reasoning := true, large_context := true }
  else if jsIncludes model "claude-3.5" then
    let caps :=
      { caps with vision := true, tool_use := true, json_mode := true }
    if jsIncludes model "sonnet" then { caps with large_context := true }
    else caps
  else if jsIncludes model "claude-3" then
    let caps := { caps with vision := true }
    let caps := if jsIncludes model "opus" || jsIncludes model "sonnet" then
        { caps with tool_use := true, json_mode := true }
      else caps
    if jsIncludes model "opus" then { caps with large_context := true }
    else caps
  else caps

end AnthropicProvider

namespace OllamaProvider

/-- OllamaProvider.isAvailable from lib/providers/ollama.js. -/
def isAvailable (c : Config) : Bool :=
  jsTruthy c.OLLAMA_HOST

/-- The params object built by OllamaProvider.generateCompletion: model name
and the nested options block with its numeric defaults. -/
structure Params where
  model : String
  temperature : ℚ
  top_p : ℚ
  num_predict : ℚ
  deriving Repr, DecidableEq

/-- The defaulted request parameters of OllamaProvider.generateCompletion. -/
def buildParams (c : Config) (opts : COptions) : Params :=
  { model := jsOrStr opts.model (jsOrStr c.OLLAMA_MODEL "llama3")
    temperature := jsOrNum opts.temperature (7 / 10)
    top_p := jsOrNum opts.top_p (9 / 10)
    num_predict := jsOrNum opts.max_tokens 1024 }

/-- Vendor outcomes for OllamaProvider.generateCompletion: the chat call in
streaming mode, or the chat call returning a message. -/
structure Vendor where
  streamCall : Except String Unit := .ok ()
  chatContent : Except String String := .ok ""
  chatModel : String := ""
  deriving Repr

/-- OllamaProvider.generateCompletion: not-configured guard, streaming
branch returning the raw stream, otherwise the chat response message. -/
def generateCompletion (c : Config) (vendor : Vendor) (opts : COptions) :
    Except String NResp :=
  if isAvailable c = false then .error "Ollama provider is not configured."
  else
    let params := buildParams c opts
    if opts.stream then
      (vendor.streamCall).map fun _ =>
        { content := none, model := params.model, streamHandle := true }
    else
      (vendor.chatContent).map fun content =>
        { content := some content, model := vendor.chatModel,
          streamHandle := false }

/-- OllamaProvider.getModelRecommendation: always the configured or default
local model, independent of the commit details. -/
def getModelRecommendation (c : Config) (_d : CommitDetails) :
    ModelRecommendation :=
  ⟨jsOrStr c.OLLAMA_MODEL "llama3", "Using configured or default Ollama model"⟩

/-- Capability descriptor of the Ollama adapter; local is part of its base. -/
structure Caps where
  vision : Bool := false
  tool_use : Bool := false
  json_mode : Bool := false
  reasoning : Bool := false
  local_model : Bool := true
  deriving Repr, DecidableEq

/-- OllamaProvider.getCapabilities: base descriptor with local set to true,
an else-if chain over llama3, codellama and mistral, then an independent
vision rule. -/
def getCapabilities (c : Config) (modelName : Option String) : Caps :=
  let model := jsOrStr modelName (jsOrStr c.OLLAMA_MODEL "llama3")
  let caps : Caps := {}
  let caps :=
    if jsIncludes model "llama3" then
      { caps with json_mode := true, tool_use := true }
    else if jsIncludes model "codellama" then
      { caps with json_mode := true, tool_use := true }
    else if jsIncludes model "mistral" then
      { caps with json_mode := true }
    else caps
  if jsIncludes model "vision" || jsIncludes model "llava" then
    { caps with vision := true }
  else caps

end OllamaProvider

namespace AzureOpenAIProvider

/-- AzureOpenAIProvider.isAvailable: endpoint present and either a key or
Azure AD authentication enabled. -/
def isAvailable (c : Config) : Bool :=
  jsTruthy c.AZURE_OPENAI_ENDPOINT &&
    (jsTruthy c.AZURE_OPENAI_KEY || c.AZURE_USE_AD_AUTH == some "true")

/-- Vendor outcomes for AzureOpenAIProvider.generateCompletion. -/
structure Vendor where
  streamCall : Except String Unit := .ok ()
  completionContent : Except String (Option String) := .ok (some "")
  completionModel : String := ""
  deriving Repr

/-- AzureOpenAIProvider.generateCompletion: not-configured guard, deployment
name defaulting (which may be left undefined), streaming branch returning
the raw stream, otherwise the vendor completion. -/
def generateCompletion (c : Config) (vendor : Vendor) (opts : COptions) :
    Except String NResp :=
  if isAvailable c = false then
    .error "Azure OpenAI provider is not configured."
  else
    let deploymentName := jsOrOpt opts.model c.AZURE_OPENAI_DEPLOYMENT_NAME
    if opts.stream then
      (vendor.streamCall).map fun _ =>
        { content := none, model := deploymentName.getD "",
          streamHandle := true }
    else
      (vendor.completionContent).map fun content =>
        { content := content, model := vendor.completionModel,
          streamHandle := false }

/-- AzureOpenAIProvider.getModelRecommendation (deployment names). -/
def getModelRecommendation (d : CommitDetails) : ModelRecommendation :=
  if d.breaking = true ∨ d.complex = true then
    ⟨"o4", "Breaking or complex change detected, using o4 model"⟩
  else if 1000 < d.lines ∨ 25 < d.files then
    ⟨"o3", "Large and complex commit, using o3 model"⟩
  else if 500 < d.lines ∨ 15 < d.files then
    ⟨"gpt-4o", "Medium-large commit size"⟩
  else if 200 < d.lines ∨ 8 < d.files then
    ⟨"gpt-4.1-standard", "Medium commit size"⟩
  else
    ⟨"gpt-4.1-mini", "Standard commit size"⟩

/-- Capability descriptor of the Azure adapter; content filtering and the
On Your Data feature are part of its base. -/
structure Caps where
  vision : Bool := false
  tool_use : Bool := false
  json_mode : Bool := false
  reasoning : Bool := false
  large_context : Bool := false
  content_filtering : Bool := true
  on_your_data : Bool := true
  deriving Repr, DecidableEq

/-- AzureOpenAIProvider.getCapabilities: the model defaults to the
configured deployment name, which can itself be absent, in which case the
substring tests of the source dereference undefined and the call fails with
a TypeError instead of returning a descriptor. -/
def getCapabilities (c : Config) (modelName : Option String) :
    Except String Caps :=
  match jsOrOpt modelName c.AZURE_OPENAI_DEPLOYMENT_NAME with
  | none => .error "TypeError: cannot read includes of undefined"
  | some model =>
    let caps : Caps := {}
    let caps :=
      if jsIncludes model "o3" || jsIncludes model "o4" then
        { caps with reasoning := true, tool_use := true, json_mode := true, vision := true, large_context := true }
      else caps
    let caps :=
      if jsIncludes model "gpt-4o" then
        { caps with vision := true, tool_use := true, json_mode := true, large_context := true }
      else caps
    if jsIncludes model "gpt-4.1" then
      let caps := { caps with tool_use := true, json_mode := true }
      if jsIncludes model "standard" then
        .ok { caps with vision := true, large_context := true }
      else .ok caps
    else .ok caps

end AzureOpenAIProvider

namespace LMStudioProvider

/-- LMStudioProvider.isAvailable from the LM Studio adapter. -/
def isAvailable (c : Config) : Bool :=
  jsTruthy c.LMSTUDIO_API_BASE

/-- Vendor outcomes for LMStudioProvider.generateCompletion. -/
structure Vendor where
  streamCall : Except String Unit := .ok ()
  completionContent : Except String (Option String) := .ok (some "")
  completionModel : String := ""
  deriving Repr

/-- LMStudioProvider.generateCompletion: not-configured guard, streaming
branch returning the raw stream, otherwise the completion with its errors
rewrapped in an LM Studio specific message by the try-catch of the source. -/
def generateCompletion (c : Config) (vendor : Vendor) (opts : COptions) :
    Except String NResp :=
  if isAvailable c = false then
    .error "LM Studio provider is not configured."
  else
    let model := jsOrStr opts.model (jsOrStr c.LMSTUDIO_MODEL "local-model")
    if opts.stream then
      (vendor.streamCall).map fun _ =>
        { content := none, model := model, streamHandle := true }
    else
      match vendor.completionContent with
      | .error m =>
        .error ("LM Studio API error: " ++ m ++
          ". Make sure LM Studio is running and the API is enabled.")
      | .ok content =>
        .ok { content := content, model := vendor.completionModel,
              streamHandle := false }

/-- LMStudioProvider.getModelRecommendation: always the configured local
model, independent of the commit details. -/
def getModelRecommendation (c : Config) (_d : CommitDetails) :
    ModelRecommendation :=
  ⟨jsOrStr c.LMSTUDIO_MODEL "local-model", "Using configured LM Studio model"⟩

/-- Capability descriptor of the LM Studio adapter; local is its base. -/
structure Caps where
  vision : Bool := false
  tool_use : Bool := false
  json_mode : Bool := false
  reasoning : Bool := false
  local_model : Bool := true
  deriving Repr, DecidableEq

/-- LMStudioProvider.getCapabilities: substring rules over the lowercased
model name. -/
def getCapabilities (c : Config) (modelName : Option String) : Caps :=
  let model := jsOrStr modelName (jsOrStr c.LMSTUDIO_MODEL "local-model")
  let lower := jsToLower model
  let caps : Caps := {}
  let caps :=
    if jsIncludes lower "llama" then
      let caps := { caps with json_mode := true }
      if jsIncludes model "3" then { caps with tool_use := true } else caps
    else if jsIncludes lower "mistral" then
      let caps := { caps with json_mode := true }
      if jsIncludes lower "mixtral" then { caps with reasoning := true }
      else caps
    else caps
  if jsIncludes lower "vision" || jsIncludes lower "llava" ||
      jsIncludes lower "bakllava" then
    { caps with vision := true }
  else caps

end LMStudioProvider

namespace HuggingFaceProvider

/-- HuggingFaceProvider.isAvailable. -/
def isAvailable (c : Config) : Bool :=
  jsTruthy c.HUGGINGFACE_API_KEY

/-- Vendor outcomes for the four call paths of
HuggingFaceProvider.generateCompletion. -/
structure Vendor where
  endpointContent : Except String String := .ok ""
  mcpContent : Except String String := .ok ""
  streamCall : Except String Unit := .ok ()
  chatContent : Except String String := .ok ""
  deriving Repr

/-- HuggingFaceProvider.generateCompletion: not-configured guard, then the
endpoint / MCP / streaming / plain chat branches of the source in order.
The endpoint client exists only when HUGGINGFACE_ENDPOINT_URL was supplied
and the MCP client only when HUGGINGFACE_USE_MCP is the string true. -/
def generateCompletion (c : Config) (vendor : Vendor) (opts : COptions) :
    Except String NResp :=
  if isAvailable c = false then
    .error "Hugging Face provider is not configured."
  else
    let modelId := jsOrStr opts.model "mistralai/Mixtral-8x22B-Instruct-v0.1"
    if jsTruthy c.HUGGINGFACE_ENDPOINT_URL && opts.useEndpoint then
      (vendor.endpointContent).map fun content =>
        { content := some content, model := modelId, streamHandle := false }
    else if (c.HUGGINGFACE_USE_MCP == some "true") && opts.useMcp then
      if opts.stream then
        (vendor.mcpContent).map fun _ =>
          { content := none, model := modelId, streamHandle := true }
      else
        (vendor.mcpContent).map fun content =>
          { content := some content, model := modelId, streamHandle := false }
    else if opts.stream then
      (vendor.streamCall).map fun _ =>
        { content := none, model := modelId, streamHandle := true }
    else
      (vendor.chatContent).map fun content =>
        { content := some content, model := modelId, streamHandle := false }

/-- HuggingFaceProvider.getModelRecommendation. -/
def getModelRecommendation (d : CommitDetails) : ModelRecommendation :=
  if d.breaking = true ∨ d.complex = true then
    ⟨"meta-llama/Meta-Llama-3.1-70B-Instruct", "Complex or breaking change detected"⟩
  else if 1000 < d.lines ∨ 25 < d.files then
    ⟨"mistralai/Mixtral-8x22B-Instruct-v0.1", "Large commit size"⟩
  else if 500 < d.lines ∨ 15 < d.files then
    ⟨"meta-llama/Meta-Llama-3.1-8B-Instruct", "Medium-large commit size"⟩
  else if 200 < d.lines ∨ 8 < d.files then
    ⟨"mistralai/Mistral-7B-Instruct-v0.3", "Medium commit size"⟩
  else
    ⟨"HuggingFaceH4/zephyr-7b-beta", "Standard commit size"⟩

/-- Capability descriptor of the Hugging Face adapter. -/
structure Caps where
  vision : Bool := false
  tool_use : Bool := false
  json_mode : Bool := false
  reasoning : Bool := false
  large_context : Bool := false
  deriving Repr, DecidableEq

/-- HuggingFaceProvider.getCapabilities: an else-if chain over the
Llama-3.1, Mixtral, Mistral and zephyr families. -/
def getCapabilities (modelName : Option String) : Caps :=
  let model := jsOrStr modelName "mistralai/Mixtral-8x22B-Instruct-v0.1"
  let caps : Caps := {}
  if jsIncludes model "Llama-3.1" then
    let caps := { caps with json_mode := true, tool_use := true }
    let caps :=
      if jsIncludes model "70B" then
        { caps with vision := true, reasoning := true, large_context := true }
      else caps
    if jsIncludes model "8B" then { caps with large_context := true }
    else caps
  else if jsIncludes model "Mixtral" then
    { caps with json_mode := true, tool_use := jsIncludes model "8x22B", large_context := true }
  else if jsIncludes model "Mistral" then
    { caps with json_mode := true }
  else if jsIncludes model "zephyr" then
    { caps with json_mode := true }
  else caps

end HuggingFaceProvider

namespace VertexAIProvider

/-- VertexAIProvider.isAvailable: project id together with a key file, a
credentials blob or the GOOGLE_APPLICATION_CREDENTIALS environment
variable. -/
def isAvailable (c : Config) : Bool :=
  jsTruthy c.VERTEX_PROJECT_ID &&
    (jsTruthy c.VERTEX_KEY_FILE || jsTruthy c.VERTEX_CREDENTIALS ||
      jsTruthy c.GOOGLE_APPLICATION_CREDENTIALS_env)

/-- The rate-limit test of the Vertex catch block:
error.message.includes quota, rate or limit. -/
def isRateLimitMsg (m : String) : Bool :=
  jsIncludes m "quota" || jsIncludes m "rate" || jsIncludes m "limit"

/-- The model-not-found test of the Vertex catch block. -/
def isModelNotFoundMsg (m : String) : Bool :=
  jsIncludes m "not found" || jsIncludes m "invalid model"

/-- VertexAIProvider.getSuggestedModels: static fallback table keyed by
substrings of the requested model name; never empty. -/
def getSuggestedModels (modelName : String) : List String :=
  if jsIncludes modelName "gemini-2.5-pro" then
    ["gemini-2.5-flash", "gemini-2.0-pro", "gemini-2.0-flash"]
  else if jsIncludes modelName "gemini-2.5-flash" then
    ["gemini-2.0-flash", "gemini-2.0-pro", "gemini-1.5-flash"]
  else if jsIncludes modelName "gemini-2.0-pro" then
    ["gemini-2.0-flash", "gemini-1.5-pro", "gemini-1.5-flash"]
  else if jsIncludes modelName "gemini-2.0-flash" then
    ["gemini-1.5-flash", "gemini-1.5-pro"]
  else if jsIncludes modelName "gemini-1.5-pro" then
    ["gemini-1.5-flash", "gemini-1.0-pro"]
  else
    ["gemini-2.5-flash", "gemini-2.0-flash", "gemini-1.5-flash"]

/-- VertexAIProvider.generateCompletion.  The vendor is a pair of call
sequences indexed by how many vendor calls were already made in this
request: sv for generateContentStream (yielding the list of chunk texts the
for-await loop accumulates) and tv for generateContent (yielding the
response text).  The second component of the result is the trace of
setTimeout backoff delays in milliseconds.  The catch block retries
rate-limit errors while retryCount is below 3 with delay 2 pow retryCount
seconds, then falls through; a model-not-found error is retried once on the
first suggested fallback model; everything else propagates. -/
def generateCompletion (c : Config) (sv : Nat → Except String (List String))
    (tv : Nat → Except String String) (callIdx : Nat) (opts : COptions) :
    Except String NResp × List Nat :=
  if isAvailable c = false then
    (.error "Vertex AI provider is not configured.", [])
  else
    let modelName := jsOrStr opts.model (jsOrStr c.VERTEX_MODEL "gemini-2.5-flash")
    let outcome : Except String String :=
      if opts.stream && opts.hasOnUpdate then (sv callIdx).map String.join
      else tv callIdx
    match outcome with
    | .ok content =>
      (.ok { content := some content, model := modelName,
             streamHandle := false }, [])
    | .error m =>
      if isRateLimitMsg m && decide (opts.retryCount < 3) then
        let delay := 2 ^ opts.retryCount * 1000
        let r := generateCompletion c sv tv (callIdx + 1)
          { opts with retryCount := opts.retryCount + 1 }
        (r.1, delay :: r.2)
      else if isModelNotFoundMsg m &&
          !(getSuggestedModels modelName).isEmpty && !opts.triedFallback then
        generateCompletion c sv tv (callIdx + 1)
          { opts with model := some ((getSuggestedModels modelName).headD ""),
                      triedFallback := true }
      else (.error m, [])
termination_by (3 - opts.retryCount) * 2 + (if opts.triedFallback then 0 else 1)
decreasing_by
  all_goals simp_all
  all_goals omega

/-- VertexAIProvider.getModelRecommendation. -/
def getModelRecommendation (d : CommitDetails) : ModelRecommendation :=
  if d.breaking = true ∨ d.complex = true then
    ⟨"gemini-2.5-pro", "Complex or breaking change detected"⟩
  else if 1500 < d.lines ∨ 30 < d.files then
    ⟨"gemini-2.5-pro", "Large commit size"⟩
  else if 800 < d.lines ∨ 20 < d.files then
    ⟨"gemini-2.0-pro", "Medium-large commit size"⟩
  else if 300 < d.lines ∨ 10 < d.files then
    ⟨"gemini-2.0-flash", "Medium commit size"⟩
  else
    ⟨"gemini-2.5-flash", "Standard commit size"⟩

/-- Capability descriptor of the Vertex adapter. -/
structure Caps where
  vision : Bool := false
  tool_use : Bool := false
  json_mode : Bool := false
  reasoning : Bool := false
  large_context : Bool := false
  streaming : Bool := false
  function_calling : Bool := false
  deriving Repr, DecidableEq

/-- VertexAIProvider.getCapabilities: an else-if chain over the gemini-2.5,
2.0, 1.5 and 1.0 series with pro and flash refinements. -/
def getCapabilities (c : Config) (modelName : Option String) : Caps :=
  let model := jsOrStr modelName (jsOrStr c.VERTEX_MODEL "gemini-2.5-flash")
  let caps : Caps := {}
  if jsIncludes model "gemini-2.5" then
    let caps := { caps with vision := true, tool_use := true, json_mode := true, streaming := true, function_calling := true, reasoning := true }
    let caps :=
      if jsIncludes model "pro" then { caps with large_context := true }
      else caps
    if jsIncludes model "flash" then { caps with large_context := true }
    else caps
  else if jsIncludes model "gemini-2.0" then
    let caps := { caps with tool_use := true, json_mode := true, streaming := true, function_calling := true }
    let caps :=
      if jsIncludes model "pro" then
        { caps with vision := true, large_context := true, reasoning := true }
      else caps
    if jsIncludes model "flash" then { caps with vision := true }
    else caps
  else if jsIncludes model "gemini-1.5" then
    let caps := { caps with vision := true, tool_use := true, streaming := true }
    let caps :=
      if jsIncludes model "pro" then
        { caps with large_context := true, json_mode := true, function_calling := true, reasoning := true }
      else caps
    if jsIncludes model "flash" then
      { caps with json_mode := true, function_calling := jsIncludes model "flash-001" || jsIncludes model "flash-002" }
    else caps
  else if jsIncludes model "gemini-1.0" then
    let caps := { caps with json_mode := true }
    if jsIncludes model "pro" then
      { caps with vision := true, tool_use := true, function_calling := true }
    else caps
  else caps

end VertexAIProvider

namespace GoogleProvider

/-- GoogleProvider.isAvailable. -/
def isAvailable (c : Config) : Bool :=
  jsTruthy c.GOOGLE_API_KEY

/-- The rate-limit test of the Google catch block:
error.message.includes rate limit or quota. -/
def isRateLimitMsg (m : String) : Bool :=
  jsIncludes m "rate limit" || jsIncludes m "quota"

/-- GoogleProvider.generateCompletion, fuel-indexed because the rate-limit
retry of its standard path recurses with unchanged options and therefore
has no ceiling.  none means the call has not resolved within fuel vendor
attempts.  The streaming branch (stream true and an onStreamData callback)
accumulates chunk text and propagates errors without retrying; the tools
branch rewraps errors; the standard branch retries every rate-limit error
after a delay obtained from this.getRetryDelay and this.sleep, two methods
defined nowhere in the repository, here abstracted as a pure wait. -/
def generateCompletion (c : Config) (vendor : Nat → Except String String)
    (callIdx : Nat) (opts : COptions) : Nat → Option (Except String NResp)
  | 0 => none
  | fuel + 1 =>
    if isAvailable c = false then
      some (.error "Google provider is not configured.")
    else
      let modelName :=
        jsOrStr opts.model (jsOrStr c.GOOGLE_DEFAULT_MODEL "gemini-2.5-flash")
      if opts.stream && opts.hasOnStreamData then
        some ((vendor callIdx).map fun t =>
          { content := some t, model := modelName, streamHandle := false })
      else if opts.hasTools then
        some (match vendor callIdx with
          | .ok t => .ok { content := some t, model := modelName,
                           streamHandle := false }
          | .error m => .error ("Tool calling error: " ++ m))
      else
        match vendor callIdx with
        | .ok t =>
          some (.ok { content := some t, model := modelName,
                      streamHandle := false })
        | .error m =>
          if isRateLimitMsg m then
            generateCompletion c vendor (callIdx + 1) opts fuel
          else some (.error m)

/-- GoogleProvider.getModelRecommendation. -/
def getModelRecommendation (d : CommitDetails) : ModelRecommendation :=
  if d.breaking = true ∨ d.complex = true then
    ⟨"gemini-2.5-pro", "Complex or breaking change detected"⟩
  else if 1500 < d.lines ∨ 30 < d.files then
    ⟨"gemini-2.5-pro", "Large commit size"⟩
  else if 800 < d.lines ∨ 20 < d.files then
    ⟨"gemini-2.0-pro", "Medium-large commit size"⟩
  else if 300 < d.lines ∨ 10 < d.files then
    ⟨"gemini-2.0-flash", "Medium commit size"⟩
  else
    ⟨"gemini-2.5-flash", "Standard commit size"⟩

/-- Capability descriptor of the Google adapter. -/
structure Caps where
  vision : Bool := false
  tool_use : Bool := false
  json_mode : Bool := false
  reasoning : Bool := false
  large_context : Bool := false
  streaming : Bool := false
  function_calling : Bool := false
  deriving Repr, DecidableEq

/-- GoogleProvider.getCapabilities: an else-if chain over the gemini-2.5,
2.0 and 1.5 series. -/
def getCapabilities (c : Config) (modelName : Option String) : Caps :=
  let model :=
    jsOrStr modelName (jsOrStr c.GOOGLE_DEFAULT_MODEL "gemini-2.5-flash")
  let caps : Caps := {}
  if jsIncludes model "gemini-2.5" then
    let caps := { caps with vision := true, tool_use := true, json_mode := true, streaming := true, function_calling := true }
    let caps :=
      if jsIncludes model "pro" then
        { caps with reasoning := true, large_context := true }
      else caps
    if jsIncludes model "flash" then { caps with large_context := true }
    else caps
  else if jsIncludes model "gemini-2.0" then
    let caps := { caps with tool_use := true, json_mode := true, streaming := true, function_calling := true }
    let caps :=
      if jsIncludes model "pro" then
        { caps with vision := true, large_context := true, reasoning := true }
      else caps
    if jsIncludes model "flash" then { caps with vision := true }
    else caps
  else if jsIncludes model "gemini-1.5" then
    let caps := { caps with vision := true, tool_use := true, streaming := true }
    let caps :=
      if jsIncludes model "pro" then
        { caps with large_context := true, json_mode := true, function_calling := true }
      else caps
    if jsIncludes model "flash" then
      { caps with json_mode := true, function_calling := jsIncludes model "flash-001" || jsIncludes model "flash-002" }
    else caps
  else caps

end GoogleProvider

namespace ProviderManager

/-- The first provider in registry enumeration order whose isAvailable
check returned true: the for-in loop of
ProviderManager.determineActiveProvider. -/
def firstAvailable : List (String × Bool) → Option String
  | [] => none
  | (n, a) :: rest => if a then some n else firstAvailable rest

/-- ProviderManager.determineActiveProvider over the provider map, given as
the list of (name, isAvailable) pairs in insertion order: the preferred
AI_PROVIDER entry when it is truthy, present and available, otherwise the
first available provider in enumeration order, otherwise none. -/
def determineActiveProvider (preferred : Option String)
    (providers : List (String × Bool)) : Option String :=
  if jsTruthy preferred &&
      ((providers.lookup (preferred.getD "")).getD false) then preferred
  else firstAvailable providers

/-- The provider map built by ProviderManager.loadProviders, keyed by
getName and inserted in the order the provider files are read from the
providers directory; modelled here with the alphabetical listing of the
eight provider files of the repository. -/
def loadedProviders (c : Config) : List (String × Bool) :=
  [ ("anthropic", AnthropicProvider.isAvailable c),
    ("azure", AzureOpenAIProvider.isAvailable c),
    ("google", GoogleProvider.isAvailable c),
    ("huggingface", HuggingFaceProvider.isAvailable c),
    ("lmstudio", LMStudioProvider.isAvailable c),
    ("ollama", OllamaProvider.isAvailable c),
    ("openai", OpenAIProvider.isAvailable c),
    ("vertex", VertexAIProvider.isAvailable c) ]

/-- The dummy provider returned by ProviderManager.getProvider when no
provider is available: its generateCompletion throws. -/
def dummyGenerateCompletion : Except String NResp :=
  .error "No AI provider configured."

/-- The dummy provider getModelRecommendation: a rule-based value, not a
thrown error. -/
def dummyGetModelRecommendation : ModelRecommendation :=
  ⟨"rule-based", "No AI provider configured."⟩

/-- The success flag and error of the dummy provider testConnection. -/
structure ConnectionResult where
  success : Bool
  error : Option String := none
  deriving Repr, DecidableEq

/-- The dummy provider testConnection: a failure value, not a thrown
error. -/
def dummyTestConnection : ConnectionResult :=
  ⟨false, some "No AI provider configured."⟩

/-- The dummy provider getCapabilities: the empty object. -/
def dummyGetCapabilities : List (String × Bool) := []

/-- The dummy provider getName. -/
def dummyGetName : String := "none"

/-- The completion entry point external callers use:
getProvider().generateCompletion.  When no provider resolved, getProvider
returns the dummy provider and the call throws its error; otherwise the
call is delegated verbatim to the active adapter, whose outcome is supplied
as the adapterComplete map. -/
def facadeComplete (preferred : Option String)
    (providers : List (String × Bool))
    (adapterComplete : String → Except String NResp) : Except String NResp :=
  match determineActiveProvider preferred providers with
  | none => dummyGenerateCompletion
  | some n => adapterComplete n

end ProviderManager

/-- Resolution as the specification words it: the preferred backend when
configured, otherwise the first configured adapter along an explicit
ordered priority list of backend names placing enterprise-hosted backends
before community and local ones.  The concrete list renders those words,
enterprise cloud backends first, local runtimes after; any such list puts
openai before ollama, which is all the comparison below uses. -/
def specProviderPriority : List String :=
  ["azure", "anthropic", "openai", "google", "ollama", "lmstudio",
   "huggingface"]

/-- First name of the priority list whose registry entry is available. -/
def firstByPriority (prio : List String)
    (providers : List (String × Bool)) : Option String :=
  match prio with
  | [] => none
  | n :: rest =>
    if (providers.lookup n).getD false then some n
    else firstByPriority rest providers

/-- The resolution procedure claimed by the specification, for comparison
with ProviderManager.determineActiveProvider. -/
def specResolveActive (preferred : Option String)
    (providers : List (String × Bool)) : Option String :=
  if jsTruthy preferred &&
      ((providers.lookup (preferred.getD "")).getD false) then preferred
  else firstByPriority specProviderPriority providers

/-- The adapter families of the registry. -/
inductive ProviderId where
  | openai | anthropic | azure | vertex | google | huggingface | ollama
  | lmstudio
  deriving Repr, DecidableEq

/-- Dispatch of getModelRecommendation over the adapter families. -/
def recommendModelOf (p : ProviderId) (c : Config) (d : CommitDetails) :
    ModelRecommendation :=
  match p with
  | .openai => OpenAIProvider.getModelRecommendation d
  | .anthropic => AnthropicProvider.getModelRecommendation d
  | .azure => AzureOpenAIProvider.getModelRecommendation d
  | .vertex => VertexAIProvider.getModelRecommendation d
  | .google => GoogleProvider.getModelRecommendation d
  | .huggingface => HuggingFaceProvider.getModelRecommendation d
  | .ollama => OllamaProvider.getModelRecommendation c d
  | .lmstudio => LMStudioProvider.getModelRecommendation c d

/-- The tier bucket of a recommended model name: its position in the
decision table of the adapter, counted from the smallest, the standard
default bucket, upward, the breaking bucket being the largest.  Model names
recommended by two adjacent buckets of the same table share the value of
the lower of the two. -/
def tierOf (p : ProviderId) (s : String) : Nat :=
  match p with
  | .openai =>
    if s = "gpt-4o" then 3
    else if s = "gpt-4.1-standard" then 2
    else if s = "gpt-4.1-mini" then 1
    else 0
  | .anthropic =>
    if s = "claude-4.0-opus" then 4
    else if s = "claude-4.0-sonnet" then 3
    else if s = "claude-3.5-sonnet" then 2
    else if s = "claude-3.5-haiku" then 1
    else 0
  | .azure =>
    if s = "o4" then 4
    else if s = "o3" then 3
    else if s = "gpt-4o" then 2
    else if s = "gpt-4.1-standard" then 1
    else 0
  | .vertex =>
    if s = "gemini-2.5-pro" then 3
    else if s = "gemini-2.0-pro" then 2
    else if s = "gemini-2.0-flash" then 1
    else 0
  | .google =>
    if s = "gemini-2.5-pro" then 3
    else if s = "gemini-2.0-pro" then 2
    else if s = "gemini-2.0-flash" then 1
    else 0
  | .huggingface =>
    if s = "meta-llama/Meta-Llama-3.1-70B-Instruct" then 4
    else if s = "mistralai/Mixtral-8x22B-Instruct-v0.1" then 3
    else if s = "meta-llama/Meta-Llama-3.1-8B-Instruct" then 2
    else if s = "mistralai/Mistral-7B-Instruct-v0.3" then 1
    else 0
  | .ollama => 0
  | .lmstudio => 0

/-- A configuration supplying only an OpenAI key. -/
def cfgOpenAI : Config := { OPENAI_API_KEY := some "sk-test" }

/-- A configuration supplying only an Anthropic key. -/
def cfgAnthropic : Config := { ANTHROPIC_API_KEY := some "sk-ant" }

/-- A configuration supplying only an Ollama host. -/
def cfgOllama : Config := { OLLAMA_HOST := some "http://localhost:11434" }

/-- A configuration supplying an Azure endpoint and key. -/
def cfgAzure : Config :=
  { AZURE_OPENAI_ENDPOINT := some "https://example.openai.azure.com"
    AZURE_OPENAI_KEY := some "azkey" }

/-- A configuration supplying only an LM Studio base URL. -/
def cfgLMStudio : Config := { LMSTUDIO_API_BASE := some "http://localhost:1234/v1" }

/-- A configuration supplying only a Hugging Face key. -/
def cfgHuggingFace : Config := { HUGGINGFACE_API_KEY := some "hf-key" }

/-- A configuration supplying a Vertex project and key file. -/
def cfgVertex : Config :=
  { VERTEX_PROJECT_ID := some "proj", VERTEX_KEY_FILE := some "key.json" }

/-- A configuration supplying only a Google key. -/
def cfgGoogle : Config := { GOOGLE_API_KEY := some "gkey" }

/-- A configuration supplying an Ollama host and an OpenAI key, with no
preferred provider named. -/
def cfgOllamaAndOpenAI : Config :=
  { OLLAMA_HOST := some "http://localhost:11434"
    OPENAI_API_KEY := some "sk-test" }

/-- A Vertex stream vendor yielding no chunks, for requests that never take
the streaming branch. -/
def vertexNoChunks : Nat → Except String (List String) := fun _ => .ok []

/-- A Vertex text vendor failing with a quota error on the first three
calls and succeeding on the fourth. -/
def vertexQuota3 : Nat → Except String String :=
  fun i => if i < 3 then .error "quota exceeded" else .ok "done"

/-- A Vertex text vendor failing with a quota error on the first four calls
and succeeding on the fifth. -/
def vertexQuota4 : Nat → Except String String :=
  fun i => if i < 4 then .error "quota exceeded" else .ok "done"

/-- A Vertex text vendor failing with model-not-found on the first call and
succeeding on the second. -/
def vertexNotFoundOnce : Nat → Except String String :=
  fun i => if i = 0 then .error "model not found" else .ok "hello"

/-- A Vertex text vendor failing every call with model-not-found. -/
def vertexNotFoundAlways : Nat → Except String String :=
  fun _ => .error "model not found"

/-- A Google vendor failing with a rate-limit error on the first four calls
and succeeding on the fifth. -/
def googleRate4 : Nat → Except String String :=
  fun i => if i < 4 then .error "rate limit" else .ok "done"

/-- A Google vendor failing every call with a quota error. -/
def googleQuotaAlways : Nat → Except String String :=
  fun _ => .error "quota hit"

/-! Helper lemmas about the registry walk. -/

theorem lookup_getD_false_of_all_false (l : List (String × Bool))
    (h : ∀ p ∈ l, p.2 = false) (x : String) :
    (l.lookup x).getD false = false := by
  induction l with
  | nil => rfl
  | cons hd tl ih =>
    simp only [List.lookup]
    by_cases hx : x == hd.1
    · simp only [hx, if_pos rfl]
      exact h hd (List.mem_cons_self hd tl)
    · simp only [hx]
      exact ih fun p hp => h p (List.mem_cons_of_mem hd hp)

theorem firstAvailable_eq_none_of_all_false (l : List (String × Bool))
    (h : ∀ p ∈ l, p.2 = false) :
    ProviderManager.firstAvailable l = none := by
  induction l with
  | nil => rfl
  | cons hd tl ih =>
    obtain ⟨n, a⟩ := hd
    have ha : a = false := h (n, a) (List.mem_cons_self _ tl)
    subst ha
    simpa [ProviderManager.firstAvailable] using
      ih fun p hp => h p (List.mem_cons_of_mem _ hp)

theorem firstAvailable_mem (l : List (String × Bool)) (n : String)
    (h : ProviderManager.firstAvailable l = some n) : (n, true) ∈ l := by
  induction l with
  | nil => simp [ProviderManager.firstAvailable] at h
  | cons hd tl ih =>
    obtain ⟨m, a⟩ := hd
    cases a with
    | true =>
      simp [ProviderManager.firstAvailable] at h
      subst h
      exact List.mem_cons_self _ tl
    | false =>
      simp [ProviderManager.firstAvailable] at h
      exact List.mem_cons_of_mem _ (ih h)

theorem lookup_getD_true_mem (l : List (String × Bool)) (x : String)
    (h : (l.lookup x).getD false = true) : (x, true) ∈ l := by
  induction l with
  | nil => simp [List.lookup] at h
  | cons hd tl ih =>
    simp only [List.lookup] at h
    by_cases hx : x == hd.1
    · simp only [hx, if_pos rfl, Option.getD_some] at h
      have hx' : x = hd.1 := by
        exact eq_of_beq hx
      have : hd = (x, true) := by
        obtain ⟨n, a⟩ := hd
        simp only at hx' h
        subst hx'
        subst h
        rfl
      rw [← this]
      exact List.mem_cons_self hd tl
    · simp only [hx] at h
      exact List.mem_cons_of_mem hd (ih h)

theorem firstAvailable_append (l1 l2 : List (String × Bool)) (n : String)
    (h : ∀ p ∈ l1, p.2 = false) :
    ProviderManager.firstAvailable (l1 ++ (n, true) :: l2) = some n := by
  induction l1 with
  | nil => simp [ProviderManager.firstAvailable]
  | cons hd tl ih =>
    obtain ⟨m, a⟩ := hd
    have ha : a = false := h (m, a) (List.mem_cons_self _ tl)
    subst ha
    simpa [ProviderManager.firstAvailable] using
      ih fun p hp => h p (List.mem_cons_of_mem _ hp)

theorem jsOrStr_some_of_ne (m d : String) (h : m ≠ "") :
    jsOrStr (some m) d = m := by
  simp [jsOrStr, h]

/-- C1 counterexample: with a configured OpenAI adapter and a request whose
stream flag is true, OpenAIProvider.generateCompletion resolves to the raw
vendor stream object, whose content field is absent, not a complete string
of accumulated output; this refutes the claim that for every adapter a
streamed completion resolves to a response carrying the accumulated content
string. -/
theorem c1_stream_counterexample :
    OpenAIProvider.generateCompletion cfgOpenAI {} { stream := true } =
      .ok { content := none, model := "gpt-4o", streamHandle := true } := by
  rfl

/-- C1 amended: only the Vertex adapter (when an onUpdate callback is
supplied) and the Google adapter (when an onStreamData callback is
supplied) resolve streamed completions to a response whose content is the
accumulated text of all streamed fragments; the OpenAI, Anthropic, Azure,
Ollama, LM Studio and Hugging Face adapters return the raw vendor stream
together with the model name and no content string at all. -/
theorem c1_stream_amended :
    (∀ cs : List String,
      (VertexAIProvider.generateCompletion cfgVertex (fun _ => .ok cs)
          (fun _ => .error "unused") 0
          { stream := true, hasOnUpdate := true }).1 =
        .ok { content := some (String.join cs), model := "gemini-2.5-flash",
              streamHandle := false }) ∧
    (∀ t : String,
      GoogleProvider.generateCompletion cfgGoogle (fun _ => .ok t) 0
          { stream := true, hasOnStreamData := true } 1 =
        some (.ok { content := some t, model := "gemini-2.5-flash",
                    streamHandle := false })) ∧
    (OpenAIProvider.generateCompletion cfgOpenAI {} { stream := true } =
      .ok { content := none, model := "gpt-4o", streamHandle := true }) ∧
    (AnthropicProvider.generateCompletion cfgAnthropic {} { stream := true } =
      .ok { content := none, model := "claude-4.0-sonnet",
            streamHandle := true }) ∧
    (AzureOpenAIProvider.generateCompletion cfgAzure {}
        { model := some "gpt-4o", stream := true } =
      .ok { content := none, model := "gpt-4o", streamHandle := true }) ∧
    (OllamaProvider.generateCompletion cfgOllama {} { stream := true } =
      .ok { content := none, model := "llama3", streamHandle := true }) ∧
    (LMStudioProvider.generateCompletion cfgLMStudio {} { stream := true } =
      .ok { content := none, model := "local-model", streamHandle := true }) ∧
    (HuggingFaceProvider.generateCompletion cfgHuggingFace {}
        { stream := true } =
      .ok { content := none, model := "mistralai/Mixtral-8x22B-Instruct-v0.1",
            streamHandle := true }) := by
  refine ⟨fun cs => ?_, fun t => ?_, rfl, rfl, rfl, rfl, rfl, rfl⟩
  · rw [VertexAIProvider.generateCompletion]
    simp +decide [cfgVertex, VertexAIProvider.isAvailable, jsTruthy, jsOrStr,
      Except.map]
  · rfl

/-- C3 counterexample: the sentinel provider returned by
ProviderManager.getProvider when no adapter is configured does not report
unavailability from its completion operation: its generateCompletion throws
(an Except.error in this embedding), refuting the claim that every
operation of the sentinel returns an unavailability result rather than
throwing. -/
theorem c3_dummy_counterexample :
    ProviderManager.dummyGenerateCompletion =
      .error "No AI provider configured." := by
  rfl

/-- C3 amended: every operation of the sentinel adapter except completion
returns an unavailability value without throwing: getModelRecommendation
yields the rule-based recommendation, testConnection a failed connection
result and getCapabilities an empty descriptor; the completion operation
instead throws the no-provider error. -/
theorem c3_dummy_amended :
    ProviderManager.dummyGetModelRecommendation =
      ⟨"rule-based", "No AI provider configured."⟩ ∧
    ProviderManager.dummyTestConnection =
      ⟨false, some "No AI provider configured."⟩ ∧
    ProviderManager.dummyGetCapabilities = [] ∧
    ProviderManager.dummyGetName = "none" ∧
    ProviderManager.dummyGenerateCompletion =
      .error "No AI provider configured." := by
  exact ⟨rfl, rfl, rfl, rfl, rfl⟩

/-- C4: when every loaded provider reports unavailable, the completion
entry point resolves no active provider and fails with exactly the
no-provider error of the sentinel, never with any other outcome, whatever
the adapters would have answered. -/
theorem c4_no_provider_error (preferred : Option String)
    (providers : List (String × Bool))
    (adapterComplete : String → Except String NResp)
    (h : ∀ p ∈ providers, p.2 = false) :
    ProviderManager.facadeComplete preferred providers adapterComplete =
      .error "No AI provider configured." := by
  have h1 : (providers.lookup (preferred.getD "")).getD false = false :=
    lookup_getD_false_of_all_false providers h _
  have h2 : ProviderManager.firstAvailable providers = none :=
    firstAvailable_eq_none_of_all_false providers h
  unfold ProviderManager.facadeComplete ProviderManager.determineActiveProvider
  simp [h1, h2, ProviderManager.dummyGenerateCompletion]

/-- C4 witness: the facade over a registry in which no provider is
available throws the no-provider error. -/
theorem c4_no_provider_error_witness :
    ProviderManager.facadeComplete none
        (ProviderManager.loadedProviders emptyConfig) (fun _ => .ok {}) =
      .error "No AI provider configured." :=
  c4_no_provider_error none (ProviderManager.loadedProviders emptyConfig)
    (fun _ => .ok {}) (by decide)

/-- C6 counterexample: the OpenAI adapter performs no automatic fallback
retry on a model-not-found failure: the vendor error propagates unchanged
from generateCompletion, refuting the claim that every adapter retries once
against the best-ranked fallback model. -/
theorem c6_fallback_counterexample :
    OpenAIProvider.generateCompletion cfgOpenAI
        { completionContent := .error "The model gpt-5-ultra does not exist" }
        {} =
      .error "The model gpt-5-ultra does not exist" := by
  rfl

/-- C6 amended: only the Vertex adapter retries a model-not-found failure,
exactly once, against the first entry of its static fallback table, and a
successful fallback response names the fallback model rather than the
requested one; a second model-not-found failure propagates; no other
adapter performs any fallback retry on the completion call: OpenAI,
Anthropic, Azure, Ollama and Hugging Face propagate the vendor error
unchanged, LM Studio surfaces it rewrapped in its LM Studio API error
message, and Google propagates it unchanged on its standard path and
rewrapped as a tool-calling error on its tools path. -/
theorem c6_fallback_amended :
    (VertexAIProvider.generateCompletion cfgVertex vertexNoChunks
        vertexNotFoundOnce 0 { model := some "gemini-2.5-pro" } =
      (.ok { content := some "hello", model := "gemini-2.5-flash",
             streamHandle := false }, [])) ∧
    (VertexAIProvider.generateCompletion cfgVertex vertexNoChunks
        vertexNotFoundAlways 0 { model := some "gemini-2.5-pro" } =
      (.error "model not found", [])) ∧
    (∀ (m : String) (opts : COptions), opts.stream = false →
      OpenAIProvider.generateCompletion cfgOpenAI
          { completionContent := .error m } opts = .error m) ∧
    (∀ (m : String) (opts : COptions), opts.stream = false →
      AnthropicProvider.generateCompletion cfgAnthropic
          { messageContent := .error m } opts = .error m) ∧
    (∀ (m : String) (opts : COptions), opts.stream = false →
      AzureOpenAIProvider.generateCompletion cfgAzure
          { completionContent := .error m } opts = .error m) ∧
    (∀ (m : String) (opts : COptions), opts.stream = false →
      OllamaProvider.generateCompletion cfgOllama
          { chatContent := .error m } opts = .error m) ∧
    (∀ (m : String) (opts : COptions), opts.stream = false →
      LMStudioProvider.generateCompletion cfgLMStudio
          { completionContent := .error m } opts =
        .error ("LM Studio API error: " ++ m ++
          ". Make sure LM Studio is running and the API is enabled.")) ∧
    (∀ (m : String) (opts : COptions), opts.stream = false →
      HuggingFaceProvider.generateCompletion cfgHuggingFace
          { chatContent := .error m } opts = .error m) ∧
    (∀ (m : String) (opts : COptions) (fuel : Nat), opts.stream = false →
      opts.hasTools = false → GoogleProvider.isRateLimitMsg m = false →
      GoogleProvider.generateCompletion cfgGoogle (fun _ => .error m) 0 opts
        (fuel + 1) = some (.error m)) ∧
    (∀ (m : String) (opts : COptions) (fuel : Nat), opts.stream = false →
      opts.hasTools = true →
      GoogleProvider.generateCompletion cfgGoogle (fun _ => .error m) 0 opts
        (fuel + 1) = some (.error ("Tool calling error: " ++ m))) := by
  refine ⟨?_, ?_, fun m opts hs => ?_, fun m opts hs => ?_,
    fun m opts hs => ?_, fun m opts hs => ?_, fun m opts hs => ?_,
    fun m opts hs => ?_, fun m opts fuel hs ht hrl => ?_,
    fun m opts fuel hs ht => ?_⟩
  · simp +decide [VertexAIProvider.generateCompletion, vertexNoChunks,
      vertexNotFoundOnce, cfgVertex, VertexAIProvider.isAvailable, jsTruthy,
      jsOrStr, VertexAIProvider.isRateLimitMsg,
      VertexAIProvider.isModelNotFoundMsg,
      VertexAIProvider.getSuggestedModels, jsIncludes]
  · simp +decide [VertexAIProvider.generateCompletion, vertexNoChunks,
      vertexNotFoundAlways, cfgVertex, VertexAIProvider.isAvailable, jsTruthy,
      jsOrStr, VertexAIProvider.isRateLimitMsg,
      VertexAIProvider.isModelNotFoundMsg,
      VertexAIProvider.getSuggestedModels, jsIncludes]
  · simp [OpenAIProvider.generateCompletion, hs, OpenAIProvider.isAvailable,
      cfgOpenAI, jsTruthy, Except.map]
  · simp [AnthropicProvider.generateCompletion, hs,
      AnthropicProvider.isAvailable, cfgAnthropic, jsTruthy, Except.map]
  · simp [AzureOpenAIProvider.generateCompletion, hs,
      AzureOpenAIProvider.isAvailable, cfgAzure, jsTruthy, Except.map]
  · simp [OllamaProvider.generateCompletion, hs, OllamaProvider.isAvailable,
      cfgOllama, jsTruthy, Except.map]
  · simp [LMStudioProvider.generateCompletion, hs,
      LMStudioProvider.isAvailable, cfgLMStudio, jsTruthy, Except.map]
  · simp [HuggingFaceProvider.generateCompletion, hs,
      HuggingFaceProvider.isAvailable, cfgHuggingFace, jsTruthy, Except.map]
  · simp [GoogleProvider.generateCompletion, hs, ht, hrl,
      GoogleProvider.isAvailable, cfgGoogle, jsTruthy, Except.map]
  · simp [GoogleProvider.generateCompletion, hs, ht,
      GoogleProvider.isAvailable, cfgGoogle, jsTruthy, Except.map]

/-- C6 witness for the amended universal parts: a concrete model-not-found
message propagates unchanged from the OpenAI adapter. -/
theorem c6_fallback_amended_witness :
    OpenAIProvider.generateCompletion cfgOpenAI
        { completionContent := .error "model not found" } {} =
      .error "model not found" :=
  c6_fallback_amended.2.2.1 "model not found" {} rfl

/-- C7: every one of the eight adapters constructed over the empty
configuration reports isAvailable false, and its generateCompletion fails
with the not-configured error of that adapter no matter what the vendor
would have answered, so no vendor call is attempted. -/
theorem c7_unconfigured_adapters :
    (OpenAIProvider.isAvailable emptyConfig = false ∧
      AnthropicProvider.isAvailable emptyConfig = false ∧
      OllamaProvider.isAvailable emptyConfig = false ∧
      AzureOpenAIProvider.isAvailable emptyConfig = false ∧
      LMStudioProvider.isAvailable emptyConfig = false ∧
      HuggingFaceProvider.isAvailable emptyConfig = false ∧
      VertexAIProvider.isAvailable emptyConfig = false ∧
      GoogleProvider.isAvailable emptyConfig = false) ∧
    (∀ (v : OpenAIProvider.Vendor) (o : COptions),
      OpenAIProvider.generateCompletion emptyConfig v o =
        .error "OpenAI provider is not configured.") ∧
    (∀ (v : AnthropicProvider.Vendor) (o : COptions),
      AnthropicProvider.generateCompletion emptyConfig v o =
        .error "Anthropic provider is not configured.") ∧
    (∀ (v : OllamaProvider.Vendor) (o : COptions),
      OllamaProvider.generateCompletion emptyConfig v o =
        .error "Ollama provider is not configured.") ∧
    (∀ (v : AzureOpenAIProvider.Vendor) (o : COptions),
      AzureOpenAIProvider.generateCompletion emptyConfig v o =
        .error "Azure OpenAI provider is not configured.") ∧
    (∀ (v : LMStudioProvider.Vendor) (o : COptions),
      LMStudioProvider.generateCompletion emptyConfig v o =
        .error "LM Studio provider is not configured.") ∧
    (∀ (v : HuggingFaceProvider.Vendor) (o : COptions),
      HuggingFaceProvider.generateCompletion emptyConfig v o =
        .error "Hugging Face provider is not configured.") ∧
    (∀ (sv : Nat → Except String (List String))
        (tv : Nat → Except String String) (i : Nat) (o : COptions),
      VertexAIProvider.generateCompletion emptyConfig sv tv i o =
        (.error "Vertex AI provider is not configured.", [])) ∧
    (∀ (v : Nat → Except String String) (i : Nat) (o : COptions) (fuel : Nat),
      GoogleProvider.generateCompletion emptyConfig v i o (fuel + 1) =
        some (.error "Google provider is not configured.")) := by
  refine ⟨by decide, fun v o => rfl, fun v o => rfl, fun v o => rfl,
    fun v o => rfl, fun v o => rfl, fun v o => rfl, fun sv tv i o => ?_,
    fun v i o fuel => rfl⟩
  rw [VertexAIProvider.generateCompletion]
  rfl

/-- C10: a request that sets temperature or max_tokens explicitly to 0 is
not honored as 0, because the adapters read option fields with the
JavaScript OR operator, under which 0 is falsy: the OpenAI parameters come
out with temperature 0.3 and max_tokens 1000 and the Ollama parameters with
temperature 0.7, all nonzero. -/
theorem c10_zero_option_ignored (opts : COptions)
    (ht : opts.temperature = some 0) (hm : opts.max_tokens = some 0) :
    (OpenAIProvider.buildParams opts).temperature = 3 / 10 ∧
    (OpenAIProvider.buildParams opts).max_tokens = 1000 ∧
    (OllamaProvider.buildParams emptyConfig opts).temperature = 7 / 10 ∧
    (OllamaProvider.buildParams emptyConfig opts).num_predict = 1024 ∧
    (3 / 10 : ℚ) ≠ 0 ∧ (7 / 10 : ℚ) ≠ 0 := by
  refine ⟨?_, ?_, ?_, ?_, by norm_num, by norm_num⟩ <;>
    simp [OpenAIProvider.buildParams, OllamaProvider.buildParams, jsOrNum,
      ht, hm]

/-- C5: the Vertex adapter implements the documented bounded retry, three
retries with backoff delays 1000, 2000 and 4000 milliseconds after which
the fourth consecutive quota failure propagates; the Google adapter does
not: its rate-limit retry carries no attempt counter, so a fourth
consecutive rate-limit failure is retried rather than propagated, and
against a vendor that always reports a quota error the call never resolves
within any number of attempts. -/
theorem c5_retry_ceiling_divergence :
    (VertexAIProvider.generateCompletion cfgVertex vertexNoChunks
        vertexQuota3 0 {} =
      (.ok { content := some "done", model := "gemini-2.5-flash",
             streamHandle := false }, [1000, 2000, 4000])) ∧
    (VertexAIProvider.generateCompletion cfgVertex vertexNoChunks
        vertexQuota4 0 {} =
      (.error "quota exceeded", [1000, 2000, 4000])) ∧
    (GoogleProvider.generateCompletion cfgGoogle googleRate4 0 {} 10 =
      some (.ok { content := some "done", model := "gemini-2.5-flash",
                  streamHandle := false })) ∧
    (∀ fuel callIdx : Nat,
      GoogleProvider.generateCompletion cfgGoogle googleQuotaAlways callIdx
        {} fuel = none) := by
  refine ⟨?_, ?_, rfl, ?_⟩
  · simp +decide [VertexAIProvider.generateCompletion, vertexNoChunks,
      vertexQuota3, cfgVertex, VertexAIProvider.isAvailable, jsTruthy,
      jsOrStr, VertexAIProvider.isRateLimitMsg,
      VertexAIProvider.isModelNotFoundMsg, jsIncludes]
  · simp +decide [VertexAIProvider.generateCompletion, vertexNoChunks,
      vertexQuota4, cfgVertex, VertexAIProvider.isAvailable, jsTruthy,
      jsOrStr, VertexAIProvider.isRateLimitMsg,
      VertexAIProvider.isModelNotFoundMsg, jsIncludes]
  · intro fuel
    induction fuel with
    | zero => intro callIdx; rfl
    | succ n ih => intro callIdx; exact ih (callIdx + 1)

/-- C2 counterexample: with an Ollama host and an OpenAI key both
configured and no preferred provider named, the registry walk of
determineActiveProvider follows the insertion order of the provider map,
the order the provider files are listed from the providers directory, and
selects the local ollama adapter, while a walk of the explicit priority
list the specification describes, enterprise-hosted backends first, would
select openai. -/
theorem c2_priority_counterexample :
    ProviderManager.determineActiveProvider none
        (ProviderManager.loadedProviders cfgOllamaAndOpenAI) =
      some "ollama" ∧
    specResolveActive none
        (ProviderManager.loadedProviders cfgOllamaAndOpenAI) =
      some "openai" ∧
    ("ollama" : String) ≠ "openai" := by
  exact ⟨by decide, by decide, by decide⟩

/-- C2 amended: resolution picks the adapter named by AI_PROVIDER when it
is truthy, present and available; otherwise it selects the first available
adapter in the enumeration order of the provider map, which is the order
the provider files were loaded, not an explicit priority list; a selected
adapter is always an available one, and when none is available resolution
yields no adapter. -/
theorem c2_resolution_amended (preferred : Option String)
    (providers : List (String × Bool)) :
    (∀ n, ProviderManager.determineActiveProvider preferred providers =
        some n → (n, true) ∈ providers) ∧
    ((∀ p ∈ providers, p.2 = false) →
      ProviderManager.determineActiveProvider preferred providers = none) ∧
    (jsTruthy preferred = true →
      (providers.lookup (preferred.getD "")).getD false = true →
      ProviderManager.determineActiveProvider preferred providers =
        preferred) ∧
    (∀ l1 n l2,
      (jsTruthy preferred &&
        (providers.lookup (preferred.getD "")).getD false) = false →
      providers = l1 ++ (n, true) :: l2 → (∀ p ∈ l1, p.2 = false) →
      ProviderManager.determineActiveProvider preferred providers =
        some n) := by
  refine ⟨?_, ?_, ?_, ?_⟩
  · intro n h
    unfold ProviderManager.determineActiveProvider at h
    by_cases hcond : (jsTruthy preferred &&
        (providers.lookup (preferred.getD "")).getD false) = true
    · rw [if_pos hcond] at h
      obtain ⟨-, h2⟩ := Bool.and_eq_true_iff.mp hcond
      have hm := lookup_getD_true_mem providers (preferred.getD "") h2
      rw [h] at hm
      simpa using hm
    · rw [if_neg hcond] at h
      exact firstAvailable_mem providers n h
  · intro hall
    have h1 := lookup_getD_false_of_all_false providers hall
      (preferred.getD "")
    have h2 := firstAvailable_eq_none_of_all_false providers hall
    unfold ProviderManager.determineActiveProvider
    simp [h1, h2]
  · intro ht hl
    unfold ProviderManager.determineActiveProvider
    simp [ht, hl]
  · intro l1 n l2 hcond heq hall
    unfold ProviderManager.determineActiveProvider
    rw [if_neg (by simp [hcond])]
    rw [heq]
    exact firstAvailable_append l1 l2 n hall

/-- C2 witness: a preferred, available provider is honored, applied at a
concrete registry. -/
theorem c2_resolution_amended_witness :
    ProviderManager.determineActiveProvider (some "openai")
        [("ollama", false), ("openai", true)] = some "openai" :=
  (c2_resolution_amended (some "openai")
    [("ollama", false), ("openai", true)]).2.2.1 (by decide) (by decide)

/-- C9 counterexample: the capability lookup of the Azure adapter is not
total: with no deployment name configured, the empty model identifier
leaves the effective model undefined and the substring rules of the source
dereference undefined, so the lookup fails instead of producing a
descriptor; moreover the Ollama adapter default descriptor is not
all-false, its local flag is true. -/
theorem c9_capabilities_counterexample :
    AzureOpenAIProvider.getCapabilities emptyConfig (some "") =
      .error "TypeError: cannot read includes of undefined" ∧
    (OllamaProvider.getCapabilities emptyConfig (some "zzz")).local_model =
      true := by
  exact ⟨rfl, rfl⟩

/-- C9 amended: for every adapter except Azure the capability lookup is
total, and an identifier matching none of the substring rules of its
family receives the adapter base descriptor; that base is all-false for
the OpenAI, Anthropic, Vertex, Google and Hugging Face adapters, while the
Ollama and LM Studio bases carry local true and the Azure base carries
content filtering and On Your Data true; the Azure lookup succeeds with
its base only when the effective model string is defined, and fails on an
undefined one. -/
theorem c9_capabilities_amended (m : String) (hne : m ≠ "")
    (h1 : jsIncludes m "gpt-4o" = false) (h2 : jsIncludes m "o1" = false)
    (h3 : jsIncludes m "gpt-4.1" = false)
    (h4 : jsIncludes m "claude-4" = false)
    (h5 : jsIncludes m "claude-3.5" = false)
    (h6 : jsIncludes m "claude-3" = false)
    (h7 : jsIncludes m "gemini-2.5" = false)
    (h8 : jsIncludes m "gemini-2.0" = false)
    (h9 : jsIncludes m "gemini-1.5" = false)
    (h10 : jsIncludes m "gemini-1.0" = false)
    (h11 : jsIncludes m "Llama-3.1" = false)
    (h12 : jsIncludes m "Mixtral" = false)
    (h13 : jsIncludes m "Mistral" = false)
    (h14 : jsIncludes m "zephyr" = false)
    (h15 : jsIncludes m "llama3" = false)
    (h16 : jsIncludes m "codellama" = false)
    (h17 : jsIncludes m "mistral" = false)
    (h18 : jsIncludes m "vision" = false)
    (h19 : jsIncludes m "llava" = false)
    (h20 : jsIncludes (jsToLower m) "llama" = false)
    (h21 : jsIncludes (jsToLower m) "mistral" = false)
    (h22 : jsIncludes (jsToLower m) "vision" = false)
    (h23 : jsIncludes (jsToLower m) "llava" = false)
    (h24 : jsIncludes (jsToLower m) "bakllava" = false)
    (h25 : jsIncludes m "o3" = false) (h26 : jsIncludes m "o4" = false) :
    OpenAIProvider.getCapabilities (some m) = {} ∧
    AnthropicProvider.getCapabilities (some m) = {} ∧
    VertexAIProvider.getCapabilities emptyConfig (some m) = {} ∧
    GoogleProvider.getCapabilities emptyConfig (some m) = {} ∧
    HuggingFaceProvider.getCapabilities (some m) = {} ∧
    OllamaProvider.getCapabilities emptyConfig (some m) = {} ∧
    LMStudioProvider.getCapabilities emptyConfig (some m) = {} ∧
    AzureOpenAIProvider.getCapabilities emptyConfig (some m) = .ok {} ∧
    ({} : OllamaProvider.Caps).local_model = true ∧
    ({} : LMStudioProvider.Caps).local_model = true ∧
    ({} : AzureOpenAIProvider.Caps).content_filtering = true ∧
    ({} : AzureOpenAIProvider.Caps).on_your_data = true := by
  have hbeq : (m == "") = false := beq_eq_false_iff_ne.mpr hne
  refine ⟨?_, ?_, ?_, ?_, ?_, ?_, ?_, ?_, rfl, rfl, rfl, rfl⟩ <;>
    simp [OpenAIProvider.getCapabilities, AnthropicProvider.getCapabilities,
      VertexAIProvider.getCapabilities, GoogleProvider.getCapabilities,
      HuggingFaceProvider.getCapabilities, OllamaProvider.getCapabilities,
      LMStudioProvider.getCapabilities, AzureOpenAIProvider.getCapabilities,
      jsOrStr, jsOrOpt, jsTruthy, hne, hbeq, h1, h2, h3, h4, h5, h6, h7, h8,
      h9, h10, h11, h12, h13, h14, h15, h16, h17, h18, h19, h20, h21, h22,
      h23, h24, h25, h26]

/-- C9 witness: the identifier zzz matches no rule of any family and every
non-Azure adapter maps it to its base descriptor. -/
theorem c9_capabilities_amended_witness :
    OpenAIProvider.getCapabilities (some "zzz") = {} :=
  (c9_capabilities_amended "zzz" (by decide) (by decide) (by decide)
    (by decide) (by decide) (by decide) (by decide) (by decide) (by decide)
    (by decide) (by decide) (by decide) (by decide) (by decide) (by decide)
    (by decide) (by decide) (by decide) (by decide) (by decide) (by decide)
    (by decide) (by decide) (by decide) (by decide) (by decide)
    (by decide)).1

/-- C8: for every adapter, holding the breaking and complex flags constant
and increasing the file and line counts never moves the recommendation of
getModelRecommendation to a smaller tier, where the tier of a model name is
its bucket position in the adapter decision table. -/
theorem c8_recommend_monotone (p : ProviderId) (c : Config)
    (d d' : CommitDetails) (hb : d.breaking = d'.breaking)
    (hc : d.complex = d'.complex) (hf : d.files ≤ d'.files)
    (hl : d.lines ≤ d'.lines) :
    tierOf p (recommendModelOf p c d).model ≤
      tierOf p (recommendModelOf p c d').model := by
  obtain ⟨b, cx, f, l⟩ := d
  obtain ⟨b', cx', f', l'⟩ := d'
  simp only at hb hc hf hl
  subst hb
  subst hc
  cases p
  case ollama => simp [recommendModelOf, tierOf]
  case lmstudio => simp [recommendModelOf, tierOf]
  all_goals
    cases b <;> cases cx <;>
      simp only [recommendModelOf, OpenAIProvider.getModelRecommendation,
        AnthropicProvider.getModelRecommendation,
        AzureOpenAIProvider.getModelRecommendation,
        VertexAIProvider.getModelRecommendation,
        GoogleProvider.getModelRecommendation,
        HuggingFaceProvider.getModelRecommendation, Bool.false_eq_true,
        false_or, eq_self_iff_true, true_or, if_true, if_false] <;>
      first
        | decide
        | (split_ifs <;> first | decide | omega)

/-- C8 witness: the monotonicity applied to a concrete pair of growing
change signals of the OpenAI adapter. -/
theorem c8_recommend_monotone_witness :
    tierOf ProviderId.openai
        (recommendModelOf ProviderId.openai emptyConfig
          ⟨false, false, 5, 100⟩).model ≤
      tierOf ProviderId.openai
        (recommendModelOf ProviderId.openai emptyConfig
          ⟨false, false, 15, 1200⟩).model :=
  c8_recommend_monotone ProviderId.openai emptyConfig
    ⟨false, false, 5, 100⟩ ⟨false, false, 15, 1200⟩ rfl rfl (by decide)
    (by decide)

/-- C10 witness: a request with temperature 0 and max_tokens 0 receives the
nonzero defaults. -/
theorem c10_zero_option_ignored_witness :
    (OpenAIProvider.buildParams
        { temperature := some 0, max_tokens := some 0 }).temperature =
      3 / 10 :=
  (c10_zero_option_ignored { temperature := some 0, max_tokens := some 0 }
    rfl rfl).1

end AIChangelog
